import Mathlib

/-!
Verification of the entity subsystem of HuTao-GS
(`src/kcpServer/game/entity/index.ts`).

The TypeScript class `Entity` is shallowly embedded as a Lean structure;
its mutating methods become pure state transformers `Entity → Entity × _`.
JavaScript numbers are modelled as exact rationals (`ℚ`) where fractional
arithmetic occurs (combat stats) and as `Nat` for identifiers and enum
values; nullable fields become `Option`.

Collaborator classes (`EntityProps`, `FightProp`, `MotionInfo`, the enums,
the manager/scene) are imported by the entity file but their sources are
not part of this repository snapshot; they are modelled from the spec's
collaborator contracts (§6) and marked as such in their doc comments.
-/

/-- Modelled from the spec: `LifeStateEnum` (enum source not in the
snapshot); the entity file uses `LIFE_ALIVE` and `LIFE_DEAD`, restored
data may carry any numeric value, so life state is a `Nat`. -/
def LIFE_ALIVE : Nat := 1

/-- Modelled from the spec: the `LIFE_DEAD` member of `LifeStateEnum`. -/
def LIFE_DEAD : Nat := 2

/-- Modelled from the spec: `PlayerDieTypeEnum.PLAYER_DIE_NONE`, the
"none" die type that `revive` resets to. Die types are numeric. -/
def PLAYER_DIE_NONE : Nat := 0

/-- Modelled from the spec: `VisionTypeEnum.VISION_DIE`, the "died"
visibility reason passed to `manager.remove`. -/
def VISION_DIE : Nat := 6

/-- Modelled from the spec: `PlayerPropEnum.PROP_LEVEL`, the scalar
property key exported in the snapshot's property list. -/
def PROP_LEVEL : Nat := 4001

/-- Modelled from the spec: `FightPropEnum.FIGHT_PROP_MAX_HP`. -/
def FIGHT_PROP_MAX_HP : Nat := 2000

/-- Modelled from the spec: `FightPropEnum.FIGHT_PROP_CUR_HP`. -/
def FIGHT_PROP_CUR_HP : Nat := 1010

/-- `ProtEntityTypeEnum`: the entity-type tag, fixed at creation.  The
entity file dispatches on the four members below; `PROT_ENTITY_NONE`
stands for every other member (the switch's default). -/
inductive ProtEntityTypeEnum where
  | PROT_ENTITY_NONE
  | PROT_ENTITY_AVATAR
  | PROT_ENTITY_MONSTER
  | PROT_ENTITY_NPC
  | PROT_ENTITY_GADGET
deriving DecidableEq, Repr

/-- Modelled from the spec: a scene peer as seen through
`world.getPeer(peerId).loadedEntityIdList` — only its loaded-entity set
is consulted by the entity file. -/
structure Peer where
  loadedEntityIdList : List Nat
deriving DecidableEq, Repr

/-- Modelled from the spec: the world's peer registry behind
`world.getPeer`.  Connected peers are an association list keyed by peer
id; `getPeer` on a null or unknown id yields nothing (JS `undefined`). -/
structure World where
  peers : List (Nat × Peer)
deriving DecidableEq, Repr

/-- `world.getPeer(peerId)` with optional chaining: null id or
disconnected peer gives `none`. -/
def World.getPeer (w : World) (peerId : Option Nat) : Option Peer :=
  match peerId with
  | none => none
  | some pid => (w.peers.find? (fun pr => pr.1 == pid)).map Prod.snd

/-- Modelled from the spec: a connected player in the scene's canonical
player list, with the three fields `updateAuthorityPeer` reads. -/
structure Player where
  peerId : Nat
  noAuthority : Bool
  loadedEntityIdList : List Nat
deriving DecidableEq, Repr

/-- Modelled from the spec: the scene collaborator — the world peer
registry, the connected-player list in canonical order, and the
broadcast-context set (contexts as identifiers). -/
structure Scene where
  world : World
  playerList : List Player
  broadcastContextList : List Nat
deriving DecidableEq, Repr

/-- Modelled from the spec: the `EntityManager` back-reference; the
entity file only reads `manager.scene` and calls `manager.remove`. -/
structure EntityManager where
  scene : Scene
deriving DecidableEq, Repr

/-- Spawn coordinate (the `Vector` class; only carried, never computed
with, in the entity file). -/
structure Vec3 where
  x : ℚ
  y : ℚ
  z : ℚ
deriving DecidableEq, Repr

/-- Modelled from the spec: the motion tracker's fields read by the
entity file — `sceneTime` and `reliableSeq` are nullable until the first
authenticated move; `pos` is carried into the snapshot by
`motionInfo.export()`. -/
structure MotionInfo where
  pos : Vec3
  sceneTime : Option Nat
  reliableSeq : Option Nat
deriving DecidableEq, Repr

/-- Modelled from the spec: `EntityProps`, a generic keyed scalar
property store (§6: `init(data)`, `get(key)`, `set(key, value)`,
`exportPropPair(key)`, `exportUserData()`).  The persisted snapshot is
the association list of key/value pairs itself. -/
structure EntityProps where
  data : List (Nat × ℚ)
deriving DecidableEq, Repr

/-- `props.get(key)` — lookup, absent keys read as 0. -/
def EntityProps.get (p : EntityProps) (key : Nat) : ℚ :=
  ((p.data.find? (fun pr => pr.1 == key)).map Prod.snd).getD 0

/-- `props.init(data)` — restore the store from its persisted snapshot. -/
def EntityProps.init (data : List (Nat × ℚ)) : EntityProps :=
  ⟨data⟩

/-- `props.exportUserData()` — the persisted snapshot. -/
def EntityProps.exportUserData (p : EntityProps) : List (Nat × ℚ) :=
  p.data

/-- `props.exportPropPair(key)` — a key/value pair for the snapshot. -/
def EntityProps.exportPropPair (p : EntityProps) (key : Nat) : Nat × ℚ :=
  (key, p.get key)

/-- Modelled from the spec: `FightProp`, the keyed combat-stat store
(§6: `init(data)`, `update()`, `get(key)`, `set(key, value, notify?)`,
`exportPropList()`, `exportUserData()`). -/
structure FightProp where
  data : List (Nat × ℚ)
deriving DecidableEq, Repr

/-- `fightProps.get(key)` — lookup, absent keys read as 0. -/
def FightProp.get (f : FightProp) (key : Nat) : ℚ :=
  ((f.data.find? (fun pr => pr.1 == key)).map Prod.snd).getD 0

/-- `fightProps.set(key, value)` — store a value under a key (the
`notify` flag only triggers a client broadcast, which is outside this
state model). -/
def FightProp.set (f : FightProp) (key : Nat) (value : ℚ) : FightProp :=
  ⟨(key, value) :: f.data.filter (fun pr => pr.1 != key)⟩

/-- `fightProps.init(data)` — restore from the persisted snapshot. -/
def FightProp.init (data : List (Nat × ℚ)) : FightProp :=
  ⟨data⟩

/-- Modelled from the spec: `fightProps.update()`, the asynchronous full
recompute of combat stats from level/curves/ability modifiers.  Its
source is not in the snapshot; §8 requires the persistence round-trip to
reproduce equivalent combat-stat values, so the recompute is modelled as
reaching a fixpoint on the stored values (identity on the store). -/
def FightProp.update (f : FightProp) : FightProp :=
  f

/-- `fightProps.exportUserData()` — the persisted snapshot. -/
def FightProp.exportUserData (f : FightProp) : List (Nat × ℚ) :=
  f.data

/-- `fightProps.exportPropList()` — the full combat-stat pair list for
the network snapshot. -/
def FightProp.exportPropList (f : FightProp) : List (Nat × ℚ) :=
  f.data

/-- `EntityUserData`, the persisted shape `{ lifeState, propsData,
fightPropsData }`.  `init` checks `typeof lifeState === 'number'`, so
the restored life state is optional. -/
structure EntityUserData where
  lifeState : Option Nat
  propsData : List (Nat × ℚ)
  fightPropsData : List (Nat × ℚ)
deriving DecidableEq, Repr

/-- The `Entity` aggregate: the fields of the TypeScript class that its
own methods read or write (`abilityList` is carried by the class but
only forwarded to collaborators, and the grow-curve/config blobs are
only passed through, so they are not part of the state model). -/
structure Entity where
  manager : Option EntityManager
  entityType : ProtEntityTypeEnum
  entityId : Nat
  groupId : Nat
  configId : Nat
  blockId : Nat
  props : EntityProps
  fightProps : FightProp
  motionInfo : MotionInfo
  authorityPeerId : Option Nat
  bornPos : Vec3
  lifeState : Nat
  godMode : Bool
  dieType : Nat
  attackerId : Option Nat
  isOnScene : Bool
deriving DecidableEq, Repr

/-- `isAlive()`: life state equals `LIFE_ALIVE`. -/
def Entity.isAlive (e : Entity) : Bool :=
  e.lifeState == LIFE_ALIVE

/-- `isDead()`: life state equals `LIFE_DEAD`. -/
def Entity.isDead (e : Entity) : Bool :=
  e.lifeState == LIFE_DEAD

/-- The predicate of the `playerList.find` callback in
`updateAuthorityPeer`: the player is not flagged authority-ineligible
and has this entity id in its loaded set. -/
def playerEligible (entityId : Nat) (p : Player) : Bool :=
  !p.noAuthority && p.loadedEntityIdList.contains entityId

/-- The first guard of `updateAuthorityPeer`:
`world?.getPeer(authorityPeerId)?.loadedEntityIdList?.includes(entityId)`
— true when the current authority peer is still connected and still has
this entity loaded (optional chains collapse to false). -/
def Entity.currentAuthorityStillValid (e : Entity) : Bool :=
  match e.manager with
  | none => false
  | some m =>
    match m.scene.world.getPeer e.authorityPeerId with
    | none => false
    | some peer => peer.loadedEntityIdList.contains e.entityId

/-- `updateAuthorityPeer()`: returns the updated entity and the boolean
result.  Faithful to the source, including that the final `return
authorityPeerId != null` reads the value destructured *before* the
assignment `this.authorityPeerId = peerId`, and that the no-candidate
path leaves `authorityPeerId` untouched. -/
def Entity.updateAuthorityPeer (e : Entity) : Entity × Bool :=
  if e.entityType ≠ ProtEntityTypeEnum.PROT_ENTITY_MONSTER ∨
      e.currentAuthorityStillValid then
    (e, false)
  else
    let peerId? : Option Nat :=
      match e.manager with
      | none => none
      | some m =>
        (m.scene.playerList.find? (playerEligible e.entityId)).map Player.peerId
    match peerId? with
    | none => (e, false)
    | some pid => ({ e with authorityPeerId := some pid }, e.authorityPeerId.isSome)

/-- The lifecycle events raised by `this.emit(...)` in `kill`/`revive`. -/
inductive LifecycleEvent where
  | death
  | revive
deriving DecidableEq, Repr

/-- `kill(attackerId, dieType)`: no-op while not alive; otherwise sets
life state to Dead, records die type and attacker, then emits `Death`.
The trace pairs each emitted event with the entity state at the moment
of emission, capturing that the mutations precede the event. -/
def Entity.kill (e : Entity) (attackerId : Nat) (dieType : Nat) :
    Entity × List (LifecycleEvent × Entity) :=
  if !e.isAlive then
    (e, [])
  else
    let e1 : Entity :=
      { e with lifeState := LIFE_DEAD, dieType := dieType, attackerId := some attackerId }
    (e1, [(LifecycleEvent.death, e1)])

/-- `revive(val?)`: no-op while alive; otherwise sets life state to
Alive, clears die type and attacker, sets current HP to
`min(maxHp, max(1, val))` when `val` is given and to `maxHp * 0.4`
otherwise (the JS literal `0.4` modelled as the exact rational `2/5`),
then emits `Revive`. -/
def Entity.revive (e : Entity) (val : Option ℚ) :
    Entity × List (LifecycleEvent × Entity) :=
  if e.isAlive then
    (e, [])
  else
    let e1 : Entity :=
      { e with lifeState := LIFE_ALIVE, dieType := PLAYER_DIE_NONE, attackerId := none }
    let maxHp := e1.fightProps.get FIGHT_PROP_MAX_HP
    let hp : ℚ :=
      match val with
      | some v => min maxHp (max 1 v)
      | none => maxHp * (2 / 5)
    let e2 : Entity := { e1 with fightProps := e1.fightProps.set FIGHT_PROP_CUR_HP hp }
    (e2, [(LifecycleEvent.revive, e2)])

/-- `init(userData)`: restore life state (defaulting to Alive when the
persisted value is not a number), restore the props and combat-stat
stores from their snapshots, then refresh abilities and combat stats
(`abilityList.update()` touches no entity field in this model;
`fightProps.update()` is the modelled recompute). -/
def Entity.init (e : Entity) (userData : EntityUserData) : Entity :=
  let e1 : Entity :=
    { e with
      lifeState :=
        match userData.lifeState with
        | some n => n
        | none => LIFE_ALIVE
      props := EntityProps.init userData.propsData
      fightProps := FightProp.init userData.fightPropsData }
  { e1 with fightProps := e1.fightProps.update }

/-- `exportUserData()`: the persistence export `{ lifeState, propsData,
fightPropsData }`. -/
def Entity.exportUserData (e : Entity) : EntityUserData :=
  { lifeState := some e.lifeState
    propsData := e.props.exportUserData
    fightPropsData := e.fightProps.exportUserData }

/-- The `aiInfo` block of the authority info: AI enabled plus spawn
position. -/
structure AiInfo where
  isAiOpen : Bool
  bornPos : Vec3
deriving DecidableEq, Repr

/-- `EntityAuthorityInfo`: the authority block of the snapshot.
`abilityInfo` is an empty placeholder object that the NPC branch
deletes, so it is optional here; the other placeholder objects
(`rendererChangedInfo`, `unknown1`) carry no data. -/
structure EntityAuthorityInfo where
  abilityInfo : Option Unit
  rendererChangedInfo : Unit
  aiInfo : AiInfo
  bornPos : Vec3
  unknown1 : Unit
deriving DecidableEq, Repr

/-- `exportEntityAuthorityInfo()`. -/
def Entity.exportEntityAuthorityInfo (e : Entity) : EntityAuthorityInfo :=
  { abilityInfo := some ()
    rendererChangedInfo := ()
    aiInfo := { isAiOpen := true, bornPos := e.bornPos }
    bornPos := e.bornPos
    unknown1 := () }

/-- The variant sub-payloads.  Their builders are placeholders in the
entity file (`return null`, overridden per concrete entity class outside
this snapshot), so the payload carries no data of its own here; what the
claims concern is which payload field is attached. -/
structure SceneAvatarInfo where
deriving DecidableEq, Repr

/-- Monster variant sub-payload (placeholder builder in the source). -/
structure SceneMonsterInfo where
deriving DecidableEq, Repr

/-- NPC variant sub-payload (placeholder builder in the source). -/
structure SceneNpcInfo where
deriving DecidableEq, Repr

/-- Gadget variant sub-payload (placeholder builder in the source). -/
structure SceneGadgetInfo where
deriving DecidableEq, Repr

/-- `exportSceneAvatarInfo()` — placeholder builder. -/
def Entity.exportSceneAvatarInfo (_ : Entity) : SceneAvatarInfo := {}

/-- `exportSceneMonsterInfo()` — placeholder builder. -/
def Entity.exportSceneMonsterInfo (_ : Entity) : SceneMonsterInfo := {}

/-- `exportSceneNpcInfo()` — placeholder builder. -/
def Entity.exportSceneNpcInfo (_ : Entity) : SceneNpcInfo := {}

/-- `exportSceneGadgetInfo()` — placeholder builder. -/
def Entity.exportSceneGadgetInfo (_ : Entity) : SceneGadgetInfo := {}

/-- `SceneEntityInfo`, the wire snapshot.  Optional fields model JS
fields that are conditionally assigned (`lastMoveSceneTimeMs`,
`lastMoveReliableSeq`, the four variant payloads) or deleted
(`lifeState` on the NPC branch). -/
structure SceneEntityInfo where
  entityType : ProtEntityTypeEnum
  entityId : Nat
  motionInfo : MotionInfo
  propList : List (Nat × ℚ)
  fightPropList : List (Nat × ℚ)
  lifeState : Option Nat
  animatorParaList : List Unit
  entityClientData : Unit
  entityAuthorityInfo : EntityAuthorityInfo
  lastMoveSceneTimeMs : Option Nat
  lastMoveReliableSeq : Option Nat
  avatar : Option SceneAvatarInfo
  monster : Option SceneMonsterInfo
  npc : Option SceneNpcInfo
  gadget : Option SceneGadgetInfo
deriving DecidableEq, Repr

/-- `exportSceneEntityInfo()`: build the common snapshot (the
conditional `lastMove*` assignments become the optional fields holding
exactly the tracker's nullable values), then dispatch on `entityType`:
the NPC branch also empties the scalar-property list, deletes
`lifeState` and deletes the authority block's `abilityInfo`. -/
def Entity.exportSceneEntityInfo (e : Entity) : SceneEntityInfo :=
  let sceneEntityInfo : SceneEntityInfo :=
    { entityType := e.entityType
      entityId := e.entityId
      motionInfo := e.motionInfo
      propList := [e.props.exportPropPair PROP_LEVEL]
      fightPropList := e.fightProps.exportPropList
      lifeState := some e.lifeState
      animatorParaList := [()]
      entityClientData := ()
      entityAuthorityInfo := e.exportEntityAuthorityInfo
      lastMoveSceneTimeMs := e.motionInfo.sceneTime
      lastMoveReliableSeq := e.motionInfo.reliableSeq
      avatar := none
      monster := none
      npc := none
      gadget := none }
  match e.entityType with
  | ProtEntityTypeEnum.PROT_ENTITY_AVATAR =>
    { sceneEntityInfo with avatar := some e.exportSceneAvatarInfo }
  | ProtEntityTypeEnum.PROT_ENTITY_MONSTER =>
    { sceneEntityInfo with monster := some e.exportSceneMonsterInfo }
  | ProtEntityTypeEnum.PROT_ENTITY_NPC =>
    { sceneEntityInfo with
      npc := some e.exportSceneNpcInfo
      propList := []
      lifeState := none
      entityAuthorityInfo :=
        { sceneEntityInfo.entityAuthorityInfo with abilityInfo := none } }
  | ProtEntityTypeEnum.PROT_ENTITY_GADGET =>
    { sceneEntityInfo with gadget := some e.exportSceneGadgetInfo }
  | ProtEntityTypeEnum.PROT_ENTITY_NONE => sceneEntityInfo

/-- The externally observable server actions of the Death hook, in
dispatch order. -/
inductive ServerAction where
  | broadcastLifeStateChange (broadcastContextList : List Nat) (entityId : Nat)
  | removeFromManager (entityId : Nat) (visionType : Nat)
deriving DecidableEq, Repr

/-- `handleDeath()`: detached entities (no manager) do nothing; attached
entities first broadcast the life-state change to every broadcast
context of the owning scene, then request removal with the "died"
visibility reason — the list order is the await order of the source. -/
def Entity.handleDeath (e : Entity) : List ServerAction :=
  match e.manager with
  | none => []
  | some m =>
    [ServerAction.broadcastLifeStateChange m.scene.broadcastContextList e.entityId,
     ServerAction.removeFromManager e.entityId VISION_DIE]

/-- A baseline constructed entity for concrete instances: a Monster with
entity id 5, alive, detached (no manager), empty stores — the
constructor's defaults plus a Monster tag. -/
def baseEntity : Entity :=
  { manager := none
    entityType := ProtEntityTypeEnum.PROT_ENTITY_MONSTER
    entityId := 5
    groupId := 0
    configId := 0
    blockId := 0
    props := ⟨[]⟩
    fightProps := ⟨[]⟩
    motionInfo := ⟨⟨0, 0, 0⟩, none, none⟩
    authorityPeerId := none
    bornPos := ⟨0, 0, 0⟩
    lifeState := LIFE_ALIVE
    godMode := false
    dieType := PLAYER_DIE_NONE
    attackerId := none
    isOnScene := false }

/-- A scene with one eligible connected player (peer id 7) whose loaded
set contains entity 5, and no registered world peers. -/
def sceneOnePeer : Scene :=
  ⟨⟨[]⟩, [⟨7, false, [5]⟩], [1]⟩

/-- A scene with no players at all. -/
def sceneEmpty : Scene :=
  ⟨⟨[]⟩, [], [1, 2]⟩

/-- A Monster with null authority and exactly one eligible peer. -/
def monsterNoAuthority : Entity :=
  { baseEntity with manager := some ⟨sceneOnePeer⟩ }

/-- A Monster holding a stale authority peer id 9 (peer 9 is not
connected) in a scene with no eligible players. -/
def monsterStaleAuthority : Entity :=
  { baseEntity with manager := some ⟨sceneEmpty⟩, authorityPeerId := some 9 }

/-- A dead Monster with max HP 11 (chosen so that 0.4 × maxHp is not an
integer). -/
def deadMonster : Entity :=
  { baseEntity with
    lifeState := LIFE_DEAD
    dieType := 3
    attackerId := some 42
    fightProps := ⟨[(FIGHT_PROP_MAX_HP, 11)]⟩ }

/-- An Avatar entity (non-Monster) with a non-null authority peer id. -/
def avatarEntity : Entity :=
  { baseEntity with
    entityType := ProtEntityTypeEnum.PROT_ENTITY_AVATAR
    manager := some ⟨sceneOnePeer⟩
    authorityPeerId := some 3 }

/-- An NPC entity. -/
def npcEntity : Entity :=
  { baseEntity with entityType := ProtEntityTypeEnum.PROT_ENTITY_NPC }

/-- A scene-attached Monster (for the Death hook). -/
def managedMonster : Entity :=
  { baseEntity with manager := some ⟨sceneEmpty⟩ }

/-- Reading back the key just stored by `fightProps.set` yields the
stored value. -/
theorem FightProp.get_set_self (f : FightProp) (k : Nat) (v : ℚ) :
    (f.set k v).get k = v := by
  simp [FightProp.get, FightProp.set, List.find?]

/-- C1, counterexample: on `monsterNoAuthority` (null authority, exactly
one eligible peer 7), `updateAuthorityPeer` does assign peer 7 but
returns `false`, because the source's final `return authorityPeerId !=
null` reads the value destructured before the assignment; hence "returns
true iff authorityPeerId is non-null after the call" is false here. -/
theorem updateAuthorityPeer_assigned_returns_false_cex :
    (Entity.updateAuthorityPeer monsterNoAuthority).1.authorityPeerId = some 7 ∧
    (Entity.updateAuthorityPeer monsterNoAuthority).2 = false ∧
    ¬((Entity.updateAuthorityPeer monsterNoAuthority).2 = true ↔
        (Entity.updateAuthorityPeer monsterNoAuthority).1.authorityPeerId ≠ none) := by
  decide

/-- C1, amended: on a Monster whose `authorityPeerId` is null before the
call and whose scene's player list yields an eligible candidate, the
call assigns that candidate's peer id to `authorityPeerId` but returns
`false` (the return value is the non-nullity of the *pre-call*
`authorityPeerId`, not the post-call one). -/
theorem updateAuthorityPeer_assigns_first_eligible
    (e : Entity) (m : EntityManager) (p : Player)
    (hM : e.entityType = ProtEntityTypeEnum.PROT_ENTITY_MONSTER)
    (hmgr : e.manager = some m)
    (hnull : e.authorityPeerId = none)
    (hfind : m.scene.playerList.find? (playerEligible e.entityId) = some p) :
    Entity.updateAuthorityPeer e = ({ e with authorityPeerId := some p.peerId }, false) := by
  have hvalid : e.currentAuthorityStillValid = false := by
    simp [Entity.currentAuthorityStillValid, hmgr, World.getPeer, hnull]
  simp [Entity.updateAuthorityPeer, hM, hvalid, hmgr, hfind, hnull, Option.isSome]

/-- C1, witness for the amended theorem at `monsterNoAuthority`. -/
theorem updateAuthorityPeer_assigns_first_eligible_witness :
    Entity.updateAuthorityPeer monsterNoAuthority =
      ({ monsterNoAuthority with authorityPeerId := some 7 }, false) :=
  updateAuthorityPeer_assigns_first_eligible monsterNoAuthority
    ⟨sceneOnePeer⟩ ⟨7, false, [5]⟩ rfl rfl rfl rfl

/-- C2, counterexample: on `monsterStaleAuthority` (stale authority peer
9 is disconnected, no eligible candidate), `updateAuthorityPeer` returns
`false` but leaves `authorityPeerId = some 9` — it is never cleared to
null, contradicting "sets authorityPeerId to null". -/
theorem updateAuthorityPeer_stale_not_cleared_cex :
    Entity.updateAuthorityPeer monsterStaleAuthority = (monsterStaleAuthority, false) ∧
    (Entity.updateAuthorityPeer monsterStaleAuthority).1.authorityPeerId = some 9 ∧
    ¬((Entity.updateAuthorityPeer monsterStaleAuthority).1.authorityPeerId = none) := by
  decide

/-- C2, amended: on a Monster whose current authority peer is no longer
valid and with no eligible candidate in the player list,
`updateAuthorityPeer` returns `false` and leaves the entity — in
particular the stale `authorityPeerId` — completely unchanged (it does
not clear it to null). -/
theorem updateAuthorityPeer_no_candidate_unchanged
    (e : Entity) (m : EntityManager)
    (hM : e.entityType = ProtEntityTypeEnum.PROT_ENTITY_MONSTER)
    (hmgr : e.manager = some m)
    (hstale : e.currentAuthorityStillValid = false)
    (hnone : m.scene.playerList.find? (playerEligible e.entityId) = none) :
    Entity.updateAuthorityPeer e = (e, false) := by
  simp [Entity.updateAuthorityPeer, hM, hstale, hmgr, hnone]

/-- C2, witness for the amended theorem at `monsterStaleAuthority`. -/
theorem updateAuthorityPeer_no_candidate_unchanged_witness :
    Entity.updateAuthorityPeer monsterStaleAuthority = (monsterStaleAuthority, false) :=
  updateAuthorityPeer_no_candidate_unchanged monsterStaleAuthority
    ⟨sceneEmpty⟩ rfl rfl rfl rfl

/-- C9: on any entity whose type is not Monster, `updateAuthorityPeer`
returns `false` and leaves the entity (hence `authorityPeerId`)
unchanged, whatever the scene contains. -/
theorem updateAuthorityPeer_nonMonster_unchanged
    (e : Entity) (h : e.entityType ≠ ProtEntityTypeEnum.PROT_ENTITY_MONSTER) :
    Entity.updateAuthorityPeer e = (e, false) := by
  simp [Entity.updateAuthorityPeer, h]

/-- C9, witness at `avatarEntity` (an Avatar in a scene with an eligible
player and a non-null `authorityPeerId`). -/
theorem updateAuthorityPeer_nonMonster_unchanged_witness :
    Entity.updateAuthorityPeer avatarEntity = (avatarEntity, false) :=
  updateAuthorityPeer_nonMonster_unchanged avatarEntity (by decide)

/-- C3, counterexample: reviving `deadMonster` (max HP 11) with no
argument sets current HP to `11 * 0.4 = 22/5`, not to
`round(0.4 × maxHp) = 4` — the source applies no rounding. -/
theorem revive_noarg_hp_not_rounded_cex :
    (Entity.revive deadMonster none).1.fightProps.get FIGHT_PROP_CUR_HP = 22 / 5 ∧
    ¬((Entity.revive deadMonster none).1.fightProps.get FIGHT_PROP_CUR_HP =
        ((round ((2 / 5 : ℚ) * deadMonster.fightProps.get FIGHT_PROP_MAX_HP) : ℤ) : ℚ)) := by
  have hmax : deadMonster.fightProps.get FIGHT_PROP_MAX_HP = 11 := by
    simp [deadMonster, baseEntity, FightProp.get, List.find?]
  have h1 : (Entity.revive deadMonster none).1.fightProps.get FIGHT_PROP_CUR_HP = 22 / 5 := by
    have halive : deadMonster.isAlive = false := by
      simp [Entity.isAlive, deadMonster, baseEntity, LIFE_DEAD, LIFE_ALIVE]
    rw [show (22 : ℚ) / 5 = 11 * (2 / 5) by norm_num]
    simp [Entity.revive, halive, FightProp.get_set_self, hmax]
  have h2 : round ((2 / 5 : ℚ) * deadMonster.fightProps.get FIGHT_PROP_MAX_HP) = 4 := by
    rw [hmax, show ((2 : ℚ) / 5) * 11 = 22 / 5 by norm_num, round_eq,
      show (22 : ℚ) / 5 + 1 / 2 = 49 / 10 by norm_num]
    rw [Int.floor_eq_iff]
    norm_num
  refine ⟨h1, fun hcontra => ?_⟩
  rw [h1, h2] at hcontra
  norm_num at hcontra

/-- C3, amended: on a Dead entity, `revive(v)` sets current HP to
`clamp(v, 1, maxHp)` and `revive()` with no argument sets current HP to
`0.4 × maxHp` exactly (no rounding); both set `lifeState = Alive`, clear
`dieType` to none and unset `attackerId`, and the Revive event is raised
after those mutations (the trace records the already-mutated state). -/
theorem revive_transitions_and_hp
    (e : Entity) (v? : Option ℚ) (h : e.lifeState = LIFE_DEAD) :
    (Entity.revive e v?).1.lifeState = LIFE_ALIVE ∧
    (Entity.revive e v?).1.dieType = PLAYER_DIE_NONE ∧
    (Entity.revive e v?).1.attackerId = none ∧
    (Entity.revive e v?).1.fightProps.get FIGHT_PROP_CUR_HP =
      (match v? with
        | some v => min (max v 1) (e.fightProps.get FIGHT_PROP_MAX_HP)
        | none => e.fightProps.get FIGHT_PROP_MAX_HP * (2 / 5)) ∧
    (Entity.revive e v?).2 = [(LifecycleEvent.revive, (Entity.revive e v?).1)] := by
  have halive : e.isAlive = false := by
    simp [Entity.isAlive, h, LIFE_DEAD, LIFE_ALIVE]
  cases v? with
  | none => simp [Entity.revive, halive, FightProp.get_set_self]
  | some v =>
    refine ⟨by simp [Entity.revive, halive], by simp [Entity.revive, halive],
      by simp [Entity.revive, halive], ?_, by simp [Entity.revive, halive]⟩
    show (Entity.revive e (some v)).1.fightProps.get FIGHT_PROP_CUR_HP =
      min (max v 1) (e.fightProps.get FIGHT_PROP_MAX_HP)
    rw [min_comm, max_comm]
    simp [Entity.revive, halive, FightProp.get_set_self]

/-- C3, witness for the amended theorem: reviving `deadMonster` with
target HP 5. -/
theorem revive_transitions_and_hp_witness :
    (Entity.revive deadMonster (some 5)).1.lifeState = LIFE_ALIVE ∧
    (Entity.revive deadMonster (some 5)).1.dieType = PLAYER_DIE_NONE ∧
    (Entity.revive deadMonster (some 5)).1.attackerId = none ∧
    (Entity.revive deadMonster (some 5)).1.fightProps.get FIGHT_PROP_CUR_HP =
      min (max 5 1) (deadMonster.fightProps.get FIGHT_PROP_MAX_HP) ∧
    (Entity.revive deadMonster (some 5)).2 =
      [(LifecycleEvent.revive, (Entity.revive deadMonster (some 5)).1)] :=
  revive_transitions_and_hp deadMonster (some 5) rfl

/-- C4: restoring an entity from its own persistence export reproduces
the life state and every props / combat-stat value (the combat-stat
recompute is modelled as a fixpoint on restored data, see
`FightProp.update`). -/
theorem init_exportUserData_roundTrip (e : Entity) :
    (Entity.init e (Entity.exportUserData e)).lifeState = e.lifeState ∧
    (∀ k, (Entity.init e (Entity.exportUserData e)).props.get k = e.props.get k) ∧
    (∀ k, (Entity.init e (Entity.exportUserData e)).fightProps.get k = e.fightProps.get k) :=
  ⟨rfl, fun _ => rfl, fun _ => rfl⟩

/-- C5: the exported snapshot of an NPC omits `lifeState`, omits the
authority block's `abilityInfo`, has an empty scalar-property list and
carries exactly the npc sub-payload; Avatar/Monster/Gadget snapshots
carry exactly their matching sub-payload, never mixed. -/
theorem exportSceneEntityInfo_variant_dispatch (e : Entity) :
    (e.entityType = ProtEntityTypeEnum.PROT_ENTITY_NPC →
      (Entity.exportSceneEntityInfo e).lifeState = none ∧
      (Entity.exportSceneEntityInfo e).entityAuthorityInfo.abilityInfo = none ∧
      (Entity.exportSceneEntityInfo e).propList = [] ∧
      (Entity.exportSceneEntityInfo e).npc = some (Entity.exportSceneNpcInfo e) ∧
      (Entity.exportSceneEntityInfo e).avatar = none ∧
      (Entity.exportSceneEntityInfo e).monster = none ∧
      (Entity.exportSceneEntityInfo e).gadget = none) ∧
    (e.entityType = ProtEntityTypeEnum.PROT_ENTITY_AVATAR →
      (Entity.exportSceneEntityInfo e).avatar = some (Entity.exportSceneAvatarInfo e) ∧
      (Entity.exportSceneEntityInfo e).monster = none ∧
      (Entity.exportSceneEntityInfo e).npc = none ∧
      (Entity.exportSceneEntityInfo e).gadget = none) ∧
    (e.entityType = ProtEntityTypeEnum.PROT_ENTITY_MONSTER →
      (Entity.exportSceneEntityInfo e).monster = some (Entity.exportSceneMonsterInfo e) ∧
      (Entity.exportSceneEntityInfo e).avatar = none ∧
      (Entity.exportSceneEntityInfo e).npc = none ∧
      (Entity.exportSceneEntityInfo e).gadget = none) ∧
    (e.entityType = ProtEntityTypeEnum.PROT_ENTITY_GADGET →
      (Entity.exportSceneEntityInfo e).gadget = some (Entity.exportSceneGadgetInfo e) ∧
      (Entity.exportSceneEntityInfo e).avatar = none ∧
      (Entity.exportSceneEntityInfo e).monster = none ∧
      (Entity.exportSceneEntityInfo e).npc = none) := by
  cases hty : e.entityType <;>
    simp [Entity.exportSceneEntityInfo, hty]

/-- C5, witness at `npcEntity`. -/
theorem exportSceneEntityInfo_variant_dispatch_witness :
    (Entity.exportSceneEntityInfo npcEntity).lifeState = none ∧
    (Entity.exportSceneEntityInfo npcEntity).entityAuthorityInfo.abilityInfo = none ∧
    (Entity.exportSceneEntityInfo npcEntity).propList = [] ∧
    (Entity.exportSceneEntityInfo npcEntity).npc = some (Entity.exportSceneNpcInfo npcEntity) ∧
    (Entity.exportSceneEntityInfo npcEntity).avatar = none ∧
    (Entity.exportSceneEntityInfo npcEntity).monster = none ∧
    (Entity.exportSceneEntityInfo npcEntity).gadget = none :=
  (exportSceneEntityInfo_variant_dispatch npcEntity).1 rfl

/-- C6: for a scene-attached entity the Death hook first dispatches the
life-state-change broadcast to every broadcast context of the owning
scene and only then requests removal with the "died" visibility reason
(the action list is in dispatch order); a detached entity's Death hook
performs no action at all. -/
theorem handleDeath_broadcast_before_remove (e : Entity) :
    (∀ m : EntityManager, e.manager = some m →
      Entity.handleDeath e =
        [ServerAction.broadcastLifeStateChange m.scene.broadcastContextList e.entityId,
         ServerAction.removeFromManager e.entityId VISION_DIE]) ∧
    (e.manager = none → Entity.handleDeath e = []) := by
  constructor
  · intro m hm
    simp [Entity.handleDeath, hm]
  · intro hm
    simp [Entity.handleDeath, hm]

/-- C6, witness at `managedMonster` (attached to a manager whose scene
has broadcast contexts 1 and 2). -/
theorem handleDeath_broadcast_before_remove_witness :
    Entity.handleDeath managedMonster =
      [ServerAction.broadcastLifeStateChange sceneEmpty.broadcastContextList
        managedMonster.entityId,
       ServerAction.removeFromManager managedMonster.entityId VISION_DIE] :=
  (handleDeath_broadcast_before_remove managedMonster).1 ⟨sceneEmpty⟩ rfl

/-- C7: `kill` while already Dead and `revive` while already Alive are
silent no-ops — no field changes and no lifecycle event is raised — and
a second `kill` after a first leaves `dieType` and `attackerId` exactly
as the first call set them. -/
theorem kill_revive_invalid_transitions_noop
    (e : Entity) (a a2 d d2 : Nat) (v? : Option ℚ) :
    (e.lifeState = LIFE_DEAD → Entity.kill e a d = (e, [])) ∧
    (e.lifeState = LIFE_ALIVE → Entity.revive e v? = (e, [])) ∧
    (e.lifeState = LIFE_ALIVE →
      Entity.kill (Entity.kill e a d).1 a2 d2 = ((Entity.kill e a d).1, []) ∧
      (Entity.kill e a d).1.dieType = d ∧
      (Entity.kill e a d).1.attackerId = some a) := by
  refine ⟨?_, ?_, ?_⟩
  · intro h
    have halive : e.isAlive = false := by
      simp [Entity.isAlive, h, LIFE_DEAD, LIFE_ALIVE]
    simp [Entity.kill, halive]
  · intro h
    have halive : e.isAlive = true := by
      simp [Entity.isAlive, h]
    simp [Entity.revive, halive]
  · intro h
    have halive : e.isAlive = true := by
      simp [Entity.isAlive, h]
    have hkill : Entity.kill e a d =
        ({ e with lifeState := LIFE_DEAD, dieType := d, attackerId := some a },
         [(LifecycleEvent.death,
           { e with lifeState := LIFE_DEAD, dieType := d, attackerId := some a })]) := by
      simp [Entity.kill, halive]
    rw [hkill]
    exact ⟨rfl, rfl, rfl⟩

/-- C7, witness: a fresh alive Monster killed twice keeps the first
call's die type 1 and attacker 42, and the second `kill` is a no-op. -/
theorem kill_revive_invalid_transitions_noop_witness :
    Entity.kill (Entity.kill baseEntity 42 1).1 7 2 = ((Entity.kill baseEntity 42 1).1, []) ∧
    (Entity.kill baseEntity 42 1).1.dieType = 1 ∧
    (Entity.kill baseEntity 42 1).1.attackerId = some 42 :=
  (kill_revive_invalid_transitions_noop baseEntity 42 7 1 2 none).2.2 rfl

/-- C8: the exported snapshot carries the last-move scene-time field iff
the motion tracker's last-move timestamp is non-null, and the last-move
reliable-sequence field iff the tracker's sequence number is non-null
(both optional snapshot fields hold exactly the tracker's values). -/
theorem exportSceneEntityInfo_lastMove_iff (e : Entity) :
    ((Entity.exportSceneEntityInfo e).lastMoveSceneTimeMs ≠ none ↔
      e.motionInfo.sceneTime ≠ none) ∧
    ((Entity.exportSceneEntityInfo e).lastMoveReliableSeq ≠ none ↔
      e.motionInfo.reliableSeq ≠ none) := by
  have h1 : (Entity.exportSceneEntityInfo e).lastMoveSceneTimeMs = e.motionInfo.sceneTime := by
    cases hty : e.entityType <;> simp [Entity.exportSceneEntityInfo, hty]
  have h2 : (Entity.exportSceneEntityInfo e).lastMoveReliableSeq = e.motionInfo.reliableSeq := by
    cases hty : e.entityType <;> simp [Entity.exportSceneEntityInfo, hty]
  rw [h1, h2]
  exact ⟨Iff.rfl, Iff.rfl⟩

/-- C10: `kill` never consults `godMode`: an Alive entity transitions to
Dead whatever `godMode` holds, and flipping `godMode` changes nothing
else about the result. -/
theorem kill_ignores_godMode
    (e : Entity) (a d : Nat) (b : Bool) (h : e.lifeState = LIFE_ALIVE) :
    (Entity.kill e a d).1.lifeState = LIFE_DEAD ∧
    (Entity.kill { e with godMode := b } a d).1.lifeState = LIFE_DEAD ∧
    (Entity.kill { e with godMode := b } a d).1 =
      { (Entity.kill e a d).1 with godMode := b } := by
  have halive : e.isAlive = true := by
    simp [Entity.isAlive, h]
  have halive2 : Entity.isAlive { e with godMode := b } = true := by
    simp [Entity.isAlive, h]
  refine ⟨by simp [Entity.kill, halive], by simp [Entity.kill, halive2], ?_⟩
  simp [Entity.kill, halive, halive2]

/-- C10, witness: killing `baseEntity` with `godMode` set to true still
yields a Dead entity. -/
theorem kill_ignores_godMode_witness :
    (Entity.kill baseEntity 42 1).1.lifeState = LIFE_DEAD ∧
    (Entity.kill { baseEntity with godMode := true } 42 1).1.lifeState = LIFE_DEAD ∧
    (Entity.kill { baseEntity with godMode := true } 42 1).1 =
      { (Entity.kill baseEntity 42 1).1 with godMode := true } :=
  kill_ignores_godMode baseEntity 42 1 true rfl
